import Mathlib

/-!
Shallow embedding of the HubSpot source connector's extraction engine
(`source_hubspot/api.py`): HTTP response classification
(`API._parse_and_handle_errors`), the rate-limit retry wrapper
(`retry_after_handler` / `API.get` / `API.post`), OAuth token refresh
(`API.access_token`), the pagination loop (`StreamAPI.read`) and the
time-chunked reader (`StreamAPI.read_chunked`).

JSON values are modelled by an inductive `Json`; Python dicts that the code
mutates (request params) are ordered association lists with Python's
assignment semantics; the remote server is modelled as a script: the list of
responses it returns to successive calls.
-/

set_option autoImplicit false

namespace Hubspot

/-- JSON values, as returned by `response.json()`. -/
inductive Json where
  | null
  | bool (b : Bool)
  | num (n : Int)
  | str (s : String)
  | arr (elems : List Json)
  | obj (fields : List (String × Json))
  deriving Repr

namespace Json

/-- Key lookup in an object's field list (first occurrence wins, as in a
Python dict, whose keys are unique). -/
def lookupField : List (String × Json) → String → Option Json
  | [], _ => none
  | (k', v) :: rest, k => if k' = k then some v else lookupField rest k

/-- `d.get(k)` on a JSON object: `some v` when the key is present, else
`none`; on a non-object, `none`. -/
def objGet : Json → String → Option Json
  | obj fields, k => lookupField fields k
  | _, _ => none

/-- `k in d`: key membership test. -/
def hasKey (j : Json) (k : String) : Bool :=
  (j.objGet k).isSome

/-- `d[k]`: indexing. The source raises `KeyError` on a missing key; every
scenario in this development indexes only present keys, so the missing case
is collapsed to `null`. -/
def pyIndex (j : Json) (k : String) : Json :=
  (j.objGet k).getD null

/-- `d.get(k) is None` holds when the key is absent or its value is JSON
null; `pyGetNotNone` returns the value exactly when `d.get(k)` is not
`None`. -/
def pyGetNotNone (j : Json) (k : String) : Option Json :=
  match j.objGet k with
  | none => none
  | some null => none
  | some v => some v

/-- `d.keys()`: the top-level keys of an object, in insertion order. -/
def topKeys : Json → List String
  | obj fields => fields.map Prod.fst
  | _ => []

/-- Python truthiness of a JSON value (`bool(v)`). -/
def truthy : Json → Bool
  | null => false
  | bool b => b
  | num n => n ≠ 0
  | str s => s ≠ ""
  | arr elems => !elems.isEmpty
  | obj fields => !fields.isEmpty

/-- The element list of a JSON array. The pagination loop iterates the
records container with `for row in response[self.data_path]`; all modelled
responses carry arrays there. -/
def asArray : Json → List Json
  | arr elems => elems
  | _ => []

end Json

/-- Request query parameters: a Python dict from string keys to JSON-ish
values, insertion-ordered. -/
def Params := List (String × Json)
  deriving Repr

/-- `params[k] = v`: replace in place when the key exists, else append. -/
def insertP : Params → String → Json → Params
  | [], k, v => [(k, v)]
  | (k', v') :: rest, k, v =>
    if k' = k then (k, v) :: rest else (k', v') :: insertP rest k v

/-- `{**a, **b}`: entries of `b` override / extend those of `a`. -/
def mergeP (a b : Params) : Params :=
  b.foldl (fun acc kv => insertP acc kv.1 kv.2) a

/-- Key lookup in request params. -/
def lookupP (ps : Params) (k : String) : Option Json :=
  Json.lookupField ps k

/-! ## HTTP Client Core: response classification

`API._parse_and_handle_errors` inspects the status code: 403 raises
`HubspotSourceUnavailable`, 429 raises `HubspotRateLimited` (carrying the
response, whose `Retry-After` header the backoff handler reads), any other
4xx/5xx raises through `raise_for_status`, and otherwise the parsed JSON
body is returned. -/

/-- One HTTP response from the remote server: status code, optional
`Retry-After` header value, and parsed JSON body. -/
structure HttpResponse where
  status : Nat
  retryAfter : Option Nat
  body : Json
  deriving Repr

/-- Classification of a single call's result. -/
inductive GetOutcome where
  /-- 2xx/3xx: `response.json()` is returned. -/
  | ok (body : Json)
  /-- 429: `HubspotRateLimited`, carrying the `Retry-After` header. -/
  | rateLimited (retryAfter : Option Nat)
  /-- 403: `HubspotSourceUnavailable`. -/
  | unavailable
  /-- Any other 4xx/5xx: `raise_for_status` raises `HTTPError`. -/
  | transport (status : Nat)
  /-- The response script ran out (no modelled scenario reaches this). -/
  | noResponse
  deriving Repr

/-- `API._parse_and_handle_errors`. -/
def parseAndHandleErrors (r : HttpResponse) : GetOutcome :=
  if r.status = 403 then .unavailable
  else if r.status = 429 then .rateLimited r.retryAfter
  else if 400 ≤ r.status ∧ r.status < 600 then .transport r.status
  else .ok r.body

/-- Result of running a (possibly retried) call: how many HTTP attempts
were issued, the list of sleep durations performed between attempts (in
seconds), and the final outcome. -/
structure GetResult where
  attempts : Nat
  sleeps : List Nat
  outcome : GetOutcome
  deriving Repr

/-! ## Backoff Controller

`retry_after_handler(max_tries=3)` wraps `API.get` with
`backoff.on_exception(backoff.constant, HubspotRateLimited, jitter=None,
interval=0, ...)`: only `HubspotRateLimited` is retried, at most
`max_tries` calls are made in total, and before each retry the
`sleep_on_ratelimit` handler sleeps `int(Retry-After header) + 1` seconds.
On give-up the original exception is re-raised. Every other exception
propagates on the first attempt. The server is modelled as the script of
responses it would return to successive attempts. -/

/-- The retry loop of `backoff.on_exception` around one logical GET.
`made` counts attempts already issued, `slept` records sleeps so far. -/
def backoffRun (maxTries : Nat) : List HttpResponse → Nat → List Nat → GetResult
  | [], made, slept => ⟨made, slept, .noResponse⟩
  | r :: rest, made, slept =>
    match parseAndHandleErrors r with
    | .ok body => ⟨made + 1, slept, .ok body⟩
    | .rateLimited ra =>
      if made + 1 < maxTries then
        -- sleep_on_ratelimit: time.sleep(retry_after + 1), then retry
        backoffRun maxTries rest (made + 1) (slept ++ [ra.getD 0 + 1])
      else
        -- give-up: re-raise HubspotRateLimited, no further request
        ⟨made + 1, slept, .rateLimited ra⟩
    | o => ⟨made + 1, slept, o⟩

/-- `API.get`: one logical GET through the retry wrapper (`max_tries=3`). -/
def apiGet (script : List HttpResponse) : GetResult :=
  backoffRun 3 script 0 []

/-- `API.post`: a single call, classified by `_parse_and_handle_errors`,
with no retry decorator. -/
def apiPost (r : HttpResponse) : GetResult :=
  ⟨1, [], parseAndHandleErrors r⟩

/-! ## Pagination Engine: `StreamAPI.read`

The class attributes that parameterize a stream. `more_key` defaults to
Python `None`, modelled as `Option.none`: `response.get(None, False)` is
`False` on a JSON-decoded dict, whose keys are strings. -/

/-- The `StreamAPI` class attributes relevant to pagination and chunking. -/
structure StreamConfig where
  more_key : Option String := none
  data_path : String := "results"
  page_filter : String := "offset"
  page_field : String := "offset"
  chunk_size : Int := 1000 * 60 * 60 * 24
  limit : Nat := 100
  deriving DecidableEq, Repr

/-- `response.get(self.more_key, False)`. -/
def getMoreFlag (resp : Json) (moreKey : Option String) : Json :=
  match moreKey with
  | none => .bool false
  | some k => (resp.objGet k).getD (.bool false)

/-- How a run of the `while True` loop in `StreamAPI.read` ended. -/
inductive ReadStop where
  /-- The loop executed `break`: pagination is exhausted. -/
  | stopped
  /-- The response script ran out while the loop was about to issue the
  next request, whose params would have been `next`. -/
  | exhausted (next : Params)
  /-- `RuntimeError("Unexpected API response: ... not in ...")`: the
  records container key is missing; the error names that key and the
  response's top-level keys. -/
  | structErr (missing : String) (keys : List String)
  /-- The getter raised (`HubspotRateLimited` after give-up,
  `HubspotSourceUnavailable`, `HTTPError`, ...). -/
  | httpErr (e : GetOutcome)
  deriving Repr

/-- Observable trace of one `StreamAPI.read` run: the records yielded (in
order), the query params of each HTTP call issued (in order), every sleep
performed by the Backoff Controller, and how the loop ended. -/
structure ReadTrace where
  records : List Json
  calls : List Params
  sleeps : List Nat
  stop : ReadStop
  deriving Repr

/-- Prefix one iteration's observations onto the remaining trace. -/
def ReadTrace.prepend (rows : List Json) (p : Params) (s : List Nat)
    (t : ReadTrace) : ReadTrace :=
  ⟨rows ++ t.records, p :: t.calls, s ++ t.sleeps, t.stop⟩

/-- One iteration body of the `while True` loop in `StreamAPI.read`, after
the getter returned the body `resp` (having slept `slept` inside the retry
wrapper): if `response.get(data_path) is None` raise the structural
`RuntimeError`; yield each row of `response[data_path]`; then the
pagination branch: if `"paging" in response` (APIv3), continue with
`params["after"] = response["paging"]["next"]["after"]` when `"next"` is
present and `break` otherwise; else (legacy) `break` when
`response.get(more_key, False)` is falsy, and otherwise continue, copying
`response[page_field]` into `params[page_filter]` when `page_field` is
present. `recur` is the rest of the loop. -/
def pageStep (cfg : StreamConfig) (resp : Json) (slept : List Nat)
    (params : Params) (recur : Params → ReadTrace) : ReadTrace :=
  match Json.pyGetNotNone resp cfg.data_path with
  | none => ⟨[], [params], slept, .structErr cfg.data_path resp.topKeys⟩
  | some container =>
    let rows := container.asArray
    if resp.hasKey "paging" then
      -- APIv3 pagination
      match (resp.pyIndex "paging").objGet "next" with
      | some nxt =>
        ReadTrace.prepend rows params slept
          (recur (insertP params "after" (nxt.pyIndex "after")))
      | none => ⟨rows, [params], slept, .stopped⟩
    else
      -- legacy pagination: break unless the "more" flag is truthy
      if (getMoreFlag resp cfg.more_key).truthy then
        ReadTrace.prepend rows params slept
          (recur
            (if resp.hasKey cfg.page_field then
              insertP params cfg.page_filter (resp.pyIndex cfg.page_field)
            else params))
      else ⟨rows, [params], slept, .stopped⟩

/-- The `while True` loop of `StreamAPI.read`: the script holds, for each
successive call of the getter, the attempt responses seen by the retry
wrapper (the getter is a bound `self._api.get` for a fixed url). Each
iteration calls the getter and runs `pageStep` on its body. -/
def readLoop (cfg : StreamConfig) : List (List HttpResponse) → Params → ReadTrace
  | [], params => ⟨[], [], [], .exhausted params⟩
  | attempts :: rest, params =>
    match apiGet attempts with
    | ⟨_, slept, .ok resp⟩ =>
      pageStep cfg resp slept params (fun p => readLoop cfg rest p)
    | ⟨_, slept, e⟩ => ⟨[], [params], slept, .httpErr e⟩

/-- `StreamAPI.read`: merge the default params (`limit` and the joined
property list) with the caller's (`{**default_params, **params} if params
else {**default_params}` — the caller's dict wins on collision, and a
falsy caller dict means defaults only), then run the loop. -/
def read (cfg : StreamConfig) (props : String)
    (script : List (List HttpResponse)) (params : Params) : ReadTrace :=
  let defaultParams : Params :=
    [("limit", .num cfg.limit), ("properties", .str props)]
  readLoop cfg script
    (if params.isEmpty then defaultParams else mergeP defaultParams params)

/-! ## Time-Chunked Reader: `StreamAPI.read_chunked` -/

set_option linter.unusedVariables false in
/-- Python `range(start, stop, step)` for a positive step. -/
def pyRange (start stop step : Int) : List Int :=
  if h : start < stop ∧ 0 < step then
    start :: pyRange (start + step) stop step
  else []
termination_by (stop - start).toNat
decreasing_by
  obtain ⟨h1, h2⟩ := h
  omega

/-- The `(startTimestamp, endTimestamp)` windows walked by `read_chunked`:
`for ts in range(start_ts, now_ts, chunk_size): end_ts = ts + chunk_size`.
The final window's end is `ts + chunk_size` even when that passes
`now_ts`. -/
def chunkWindows (startTs nowTs chunk : Int) : List (Int × Int) :=
  (pyRange startTs nowTs chunk).map fun ts => (ts, ts + chunk)

/-- `StreamAPI.read_chunked`: walk the windows in increasing order,
setting `params["startTimestamp"]` and `params["endTimestamp"]` for each,
and delegate each window to `read`. The oracle gives the server's response
script for each window's request. -/
def read_chunked (cfg : StreamConfig) (props : String)
    (oracle : Int × Int → List (List HttpResponse)) (params : Params)
    (startTs nowTs : Int) : List ReadTrace :=
  (chunkWindows startTs nowTs cfg.chunk_size).map fun w =>
    read cfg props (oracle w)
      (insertP (insertP params "startTimestamp" (.num w.1))
        "endTimestamp" (.num w.2))

/-! ## Credential Store: `API.access_token`

In OAuth mode `self._credentials` holds `access_token` (possibly absent,
`None`, or empty — all falsy) and `token_expires` (a `datetime` or `None`;
timestamps are modelled as integers). Reading the `access_token` property:
if `not self._credentials.get("access_token")` return `None`; else if
`token_expires is None or token_expires < datetime.utcnow()` call
`_acquire_access_token_from_refresh_token()`; finally return
`self._credentials.get("access_token")`. -/

/-- OAuth credential state.  `access_token = none` covers an absent or
`None` entry; the empty string is a present but falsy token.
`token_expires = none` models a stored `None` expiry. -/
structure Creds where
  access_token : Option String
  token_expires : Option Int
  refresh_token : String
  deriving DecidableEq, Repr

/-- Python truthiness of `credentials.get("access_token")`. -/
def tokenTruthy : Option String → Bool
  | none => false
  | some s => s ≠ ""

/-- JSON body of a successful `POST /oauth/v1/token`. -/
structure AuthResponse where
  access_token : String
  refresh_token : String
  expires_in : Int
  deriving DecidableEq, Repr

/-- `API._acquire_access_token_from_refresh_token`, success path: store the
new tokens and set `token_expires = utcnow() + (expires_in - 600)`. -/
def acquireAccessTokenFromRefreshToken (c : Creds) (now : Int)
    (auth : AuthResponse) : Creds :=
  { c with
    access_token := some auth.access_token
    refresh_token := auth.refresh_token
    token_expires := some (now + (auth.expires_in - 600)) }

/-- Result of reading the `API.access_token` property: the value returned
to the caller, the credential state afterwards, and whether a refresh was
performed. -/
structure TokenRead where
  token : Option String
  creds : Creds
  refreshed : Bool
  deriving DecidableEq, Repr

/-- `API.access_token` (property getter). `now` is `datetime.utcnow()` and
`auth` the token endpoint's response should a refresh be issued. -/
def accessToken (c : Creds) (now : Int) (auth : AuthResponse) : TokenRead :=
  if tokenTruthy c.access_token = false then
    ⟨none, c, false⟩
  else
    match c.token_expires with
    | none =>
      let c' := acquireAccessTokenFromRefreshToken c now auth
      ⟨c'.access_token, c', true⟩
    | some e =>
      if e < now then
        let c' := acquireAccessTokenFromRefreshToken c now auth
        ⟨c'.access_token, c', true⟩
      else ⟨c.access_token, c, false⟩

/-! ## Helper lemmas -/

theorem pyRange_step (start stop step : Int) (h1 : start < stop) (h2 : 0 < step) :
    pyRange start stop step = start :: pyRange (start + step) stop step := by
  conv_lhs => rw [pyRange]
  simp [h1, h2]

theorem pyRange_stop (start stop step : Int) (h : ¬ start < stop) :
    pyRange start stop step = [] := by
  rw [pyRange]
  simp [h]

/-- The sleeps recorded while fetching a page are a prefix of the trace's
sleep list; records, calls and stop reason do not depend on them. -/
theorem pageStep_sleeps_shift (cfg : StreamConfig) (resp : Json) (s : List Nat)
    (params : Params) (recur : Params → ReadTrace) :
    (pageStep cfg resp s params recur).records
        = (pageStep cfg resp [] params recur).records ∧
    (pageStep cfg resp s params recur).calls
        = (pageStep cfg resp [] params recur).calls ∧
    (pageStep cfg resp s params recur).stop
        = (pageStep cfg resp [] params recur).stop ∧
    (pageStep cfg resp s params recur).sleeps
        = s ++ (pageStep cfg resp [] params recur).sleeps := by
  unfold pageStep
  cases hd : Json.pyGetNotNone resp cfg.data_path with
  | none => simp
  | some container =>
    by_cases hp : resp.hasKey "paging"
    · cases hn : (resp.pyIndex "paging").objGet "next" <;>
        simp [hp, hn, ReadTrace.prepend]
    · by_cases hm : (getMoreFlag resp cfg.more_key).truthy <;>
        simp [hp, hm, ReadTrace.prepend]

/-! ## Concrete fixtures -/

/-- A 200 response with the given JSON body. -/
def ok200 (b : Json) : HttpResponse := ⟨200, none, b⟩

/-- A 429 response carrying `Retry-After: ra`. -/
def tooMany (ra : Nat) : HttpResponse := ⟨429, some ra, .null⟩

/-- Cursor-protocol page: `{results: [a, b], paging: {next: {after: "X"}}}`. -/
def pageCursor : Json :=
  .obj [("results", .arr [.str "a", .str "b"]),
    ("paging", .obj [("next", .obj [("after", .str "X")])])]

/-- Final cursor-protocol page: `{results: [c]}`, no `paging`. -/
def pageLast : Json := .obj [("results", .arr [.str "c"])]

/-- Legacy page whose `hasMore` flag is true but with no `offset` field. -/
def pageMoreNoOffset : Json :=
  .obj [("results", .arr [.str "r1"]), ("hasMore", .bool true)]

/-- Legacy page with `hasMore: false` but an `offset` field present. -/
def pageNoMoreButOffset : Json :=
  .obj [("results", .arr [.str "e"]), ("hasMore", .bool false),
    ("offset", .num 7)]

/-- A page carrying both protocols' fields: a cursor envelope plus truthy
legacy `hasMore`/`offset` fields. -/
def pageBothProtocols : Json :=
  .obj [("results", .arr [.str "d"]), ("hasMore", .bool true),
    ("offset", .num 5),
    ("paging", .obj [("next", .obj [("after", .str "Y")])])]

/-- A response with no `results` container at all. -/
def pageMissingResults : Json := .obj [("foo", .num 1), ("bar", .num 2)]

/-- Stream config of a legacy-protocol stream (e.g. `EngagementsAPI`,
which sets `more_key = "hasMore"`, with inherited
`page_filter = page_field = "offset"`). -/
def cfgLegacy : StreamConfig := { more_key := some "hasMore" }

/-- Stream config of a cursor-protocol stream (e.g. `ContactsAPI`; all
`StreamAPI` defaults). -/
def cfgCursor : StreamConfig := {}

/-- A stream config with a small chunk size, for window arithmetic. -/
def cfgChunk2 : StreamConfig := { chunk_size := 2 }

/-- A server oracle returning an empty response script for every window. -/
def emptyOracle : Int × Int → List (List HttpResponse) := fun _ => []

/-! ## Claims -/

/-- C3: for a cursor-protocol stream whose first call returns
`{results: [a, b], paging: {next: {after: "X"}}}` and whose second call
(with `after = X`) returns `{results: [c]}` with no `paging.next`, `read`
yields exactly `[a, b, c]` and makes exactly two HTTP calls, the second
one carrying `after = "X"`. -/
theorem read_cursor_two_pages_yields_abc :
    read cfgCursor "" [[ok200 pageCursor], [ok200 pageLast]]
        [("archived", .str "false")] =
      ⟨[.str "a", .str "b", .str "c"],
       [[("limit", .num 100), ("properties", .str ""),
          ("archived", .str "false")],
        [("limit", .num 100), ("properties", .str ""),
          ("archived", .str "false"), ("after", .str "X")]],
       [], .stopped⟩ := by
  rfl

/-- C2: for every response carrying `paging.next.after`, the engine sets
the `after` param to that value and issues exactly one more request —
the loop continues into the next scripted call with `after` updated, and
with an empty remaining script it ends wanting exactly that next request —
regardless of any legacy "more"/continuation fields in the response. -/
theorem read_cursor_sets_after_and_continues (cfg : StreamConfig)
    (attempts : List HttpResponse) (rest : List (List HttpResponse))
    (params : Params) (resp container nxt v : Json) (n : Nat)
    (slept : List Nat)
    (hGet : apiGet attempts = ⟨n, slept, .ok resp⟩)
    (hData : Json.pyGetNotNone resp cfg.data_path = some container)
    (hPaging : resp.hasKey "paging" = true)
    (hNext : (resp.pyIndex "paging").objGet "next" = some nxt)
    (hAfter : nxt.objGet "after" = some v) :
    readLoop cfg (attempts :: rest) params =
      ReadTrace.prepend container.asArray params slept
        (readLoop cfg rest (insertP params "after" v)) ∧
    (readLoop cfg [attempts] params).stop =
      ReadStop.exhausted (insertP params "after" v) := by
  have hIdx : nxt.pyIndex "after" = v := by simp [Json.pyIndex, hAfter]
  have key : ∀ (r : List (List HttpResponse)),
      readLoop cfg (attempts :: r) params =
        ReadTrace.prepend container.asArray params slept
          (readLoop cfg r (insertP params "after" v)) := by
    intro r
    simp only [readLoop, hGet]
    unfold pageStep
    rw [hData]
    simp [hPaging, hNext, hIdx]
  refine ⟨key rest, ?_⟩
  rw [key []]
  simp [readLoop, ReadTrace.prepend]

/-- Witness for C2, on a page that carries the cursor envelope together
with truthy legacy fields (`hasMore: true`, `offset: 5`), under a config
whose `more_key` is set. -/
theorem read_cursor_sets_after_and_continues_witness :
    apiGet [ok200 pageBothProtocols] = ⟨1, [], .ok pageBothProtocols⟩ ∧
    Json.pyGetNotNone pageBothProtocols cfgLegacy.data_path
      = some (.arr [.str "d"]) ∧
    pageBothProtocols.hasKey "paging" = true ∧
    (readLoop cfgLegacy [[ok200 pageBothProtocols]] []).stop =
      ReadStop.exhausted (insertP [] "after" (.str "Y")) := by
  refine ⟨rfl, rfl, rfl, ?_⟩
  exact (read_cursor_sets_after_and_continues cfgLegacy
    [ok200 pageBothProtocols] [] [] pageBothProtocols (.arr [.str "d"])
    (.obj [("after", .str "Y")]) (.str "Y") 1 [] rfl rfl rfl rfl rfl).2

/-- C1 counterexample: under the legacy protocol, a response whose
`hasMore` flag is present and true but whose `offset` continuation field
is absent does NOT stop the read: a second request is issued (with
unchanged params), and a single-page script ends with the loop still
demanding the next request rather than `break`-ing. -/
theorem read_legacy_more_no_offset_counterexample :
    (readLoop cfgLegacy
      [[ok200 pageMoreNoOffset], [ok200 pageMoreNoOffset]] []).calls
      = [[], []] ∧
    (readLoop cfgLegacy [[ok200 pageMoreNoOffset]] []).stop
      ≠ ReadStop.stopped := by
  refine ⟨rfl, fun h => ?_⟩
  rw [show (readLoop cfgLegacy [[ok200 pageMoreNoOffset]] []).stop
      = ReadStop.exhausted [] from rfl] at h
  exact ReadStop.noConfusion h

/-- C1 (amended): for a legacy-protocol response whose "more" flag is
present and true but whose continuation field is absent, `read` does not
stop — it issues the next request with unchanged params (so a server that
keeps returning such a page is polled forever). -/
theorem read_legacy_more_no_offset_continues (cfg : StreamConfig)
    (mk : String) (attempts : List HttpResponse)
    (rest : List (List HttpResponse)) (params : Params)
    (resp container : Json) (n : Nat) (slept : List Nat)
    (hMk : cfg.more_key = some mk)
    (hGet : apiGet attempts = ⟨n, slept, .ok resp⟩)
    (hData : Json.pyGetNotNone resp cfg.data_path = some container)
    (hNoPaging : resp.hasKey "paging" = false)
    (hMore : resp.objGet mk = some (.bool true))
    (hNoField : resp.hasKey cfg.page_field = false) :
    readLoop cfg (attempts :: rest) params =
      ReadTrace.prepend container.asArray params slept
        (readLoop cfg rest params) := by
  have hFlag : getMoreFlag resp cfg.more_key = .bool true := by
    rw [hMk]; simp [getMoreFlag, hMore]
  simp only [readLoop, hGet]
  unfold pageStep
  rw [hData]
  simp [hNoPaging, hFlag, hNoField, Json.truthy]

/-- Witness for the amended C1 at the concrete legacy page. -/
theorem read_legacy_more_no_offset_continues_witness :
    cfgLegacy.more_key = some "hasMore" ∧
    apiGet [ok200 pageMoreNoOffset] = ⟨1, [], .ok pageMoreNoOffset⟩ ∧
    pageMoreNoOffset.objGet "hasMore" = some (.bool true) ∧
    pageMoreNoOffset.hasKey cfgLegacy.page_field = false ∧
    readLoop cfgLegacy [[ok200 pageMoreNoOffset], [ok200 pageMoreNoOffset]] []
      = ReadTrace.prepend (Json.asArray (.arr [.str "r1"])) [] []
          (readLoop cfgLegacy [[ok200 pageMoreNoOffset]] []) := by
  refine ⟨rfl, rfl, rfl, rfl, ?_⟩
  exact read_legacy_more_no_offset_continues cfgLegacy "hasMore"
    [ok200 pageMoreNoOffset] [[ok200 pageMoreNoOffset]] []
    pageMoreNoOffset (.arr [.str "r1"]) 1 [] rfl rfl rfl rfl rfl rfl

/-- C8: for every legacy-protocol response (no `paging` envelope) whose
"more" flag is false or absent, `read` yields the page's records and then
terminates, even when a continuation field is present. -/
theorem read_legacy_no_more_stops (cfg : StreamConfig)
    (attempts : List HttpResponse) (rest : List (List HttpResponse))
    (params : Params) (resp container : Json) (n : Nat) (slept : List Nat)
    (hGet : apiGet attempts = ⟨n, slept, .ok resp⟩)
    (hData : Json.pyGetNotNone resp cfg.data_path = some container)
    (hNoPaging : resp.hasKey "paging" = false)
    (hMore : getMoreFlag resp cfg.more_key = .bool false) :
    readLoop cfg (attempts :: rest) params =
      ⟨container.asArray, [params], slept, .stopped⟩ := by
  simp only [readLoop, hGet]
  unfold pageStep
  rw [hData]
  simp [hNoPaging, hMore, Json.truthy]

/-- Witness for C8 at a legacy page with `hasMore: false` and an `offset`
field present; the trace stops after one call. -/
theorem read_legacy_no_more_stops_witness :
    apiGet [ok200 pageNoMoreButOffset] = ⟨1, [], .ok pageNoMoreButOffset⟩ ∧
    pageNoMoreButOffset.hasKey "paging" = false ∧
    getMoreFlag pageNoMoreButOffset cfgLegacy.more_key = .bool false ∧
    pageNoMoreButOffset.hasKey cfgLegacy.page_field = true ∧
    readLoop cfgLegacy [[ok200 pageNoMoreButOffset], [ok200 pageLast]] []
      = ⟨Json.asArray (.arr [.str "e"]), [[]], [], .stopped⟩ := by
  refine ⟨rfl, rfl, rfl, rfl, ?_⟩
  exact read_legacy_no_more_stops cfgLegacy [ok200 pageNoMoreButOffset]
    [[ok200 pageLast]] [] pageNoMoreButOffset (.arr [.str "e"]) 1 []
    rfl rfl rfl rfl

/-- C9: for every response in which the configured records-container key
(`data_path`) is absent, `read` raises the structural `RuntimeError`
naming the missing key and the response's actual top-level keys, and
yields no records from that response. -/
theorem read_missing_container_errors (cfg : StreamConfig)
    (attempts : List HttpResponse) (rest : List (List HttpResponse))
    (params : Params) (resp : Json) (n : Nat) (slept : List Nat)
    (hGet : apiGet attempts = ⟨n, slept, .ok resp⟩)
    (hData : resp.objGet cfg.data_path = none) :
    readLoop cfg (attempts :: rest) params =
      ⟨[], [params], slept, .structErr cfg.data_path resp.topKeys⟩ := by
  have h : Json.pyGetNotNone resp cfg.data_path = none := by
    simp [Json.pyGetNotNone, hData]
  simp only [readLoop, hGet]
  unfold pageStep
  rw [h]

/-- Witness for C9: a response `{foo: 1, bar: 2}` with no `results` key
errors naming `results` and the keys `[foo, bar]`, with no records. -/
theorem read_missing_container_errors_witness :
    pageMissingResults.objGet cfgCursor.data_path = none ∧
    apiGet [ok200 pageMissingResults] = ⟨1, [], .ok pageMissingResults⟩ ∧
    readLoop cfgCursor [[ok200 pageMissingResults]] []
      = ⟨[], [[]], [], .structErr "results" ["foo", "bar"]⟩ := by
  refine ⟨rfl, rfl, ?_⟩
  exact read_missing_container_errors cfgCursor [ok200 pageMissingResults]
    [] [] pageMissingResults 1 [] rfl rfl

/-- C6: when the first three attempts of a GET all return 429, the call
fails with the rate-limit error after exactly the retry budget of 3
attempts, issuing no further requests (whatever the script still holds);
a 403 or any other 4xx/5xx propagates on the first attempt, unretried. -/
theorem get_429_budget_other_errors_immediate (r1 r2 r3 : HttpResponse)
    (rest : List HttpResponse)
    (h1 : r1.status = 429) (h2 : r2.status = 429) (h3 : r3.status = 429) :
    apiGet (r1 :: r2 :: r3 :: rest) =
      ⟨3, [r1.retryAfter.getD 0 + 1, r2.retryAfter.getD 0 + 1],
        .rateLimited r3.retryAfter⟩ ∧
    (∀ (r : HttpResponse) (rest2 : List HttpResponse), r.status = 403 →
      apiGet (r :: rest2) = ⟨1, [], .unavailable⟩) ∧
    (∀ (r : HttpResponse) (rest2 : List HttpResponse),
      400 ≤ r.status → r.status < 600 → r.status ≠ 403 → r.status ≠ 429 →
      apiGet (r :: rest2) = ⟨1, [], .transport r.status⟩) := by
  refine ⟨?_, ?_, ?_⟩
  · simp [apiGet, backoffRun, parseAndHandleErrors, h1, h2, h3]
  · intro r rest2 hr
    simp [apiGet, backoffRun, parseAndHandleErrors, hr]
  · intro r rest2 hge hlt h403 h429
    simp [apiGet, backoffRun, parseAndHandleErrors, h403, h429, hge, hlt]

/-- Witness for C6: three 429s (Retry-After 7, 9, 11) exhaust the budget
even though a 200 is next in the script; sleeps were 8 and 10 seconds. -/
theorem get_429_budget_witness :
    (tooMany 7).status = 429 ∧ (tooMany 9).status = 429 ∧
    (tooMany 11).status = 429 ∧
    apiGet [tooMany 7, tooMany 9, tooMany 11, ok200 (.str "late")] =
      ⟨3, [8, 10], .rateLimited (some 11)⟩ := by
  refine ⟨rfl, rfl, rfl, ?_⟩
  exact (get_429_budget_other_errors_immediate (tooMany 7) (tooMany 9)
    (tooMany 11) [ok200 (.str "late")] rfl rfl rfl).1

/-- C7: a GET answered 429 with `Retry-After: ra` and then 200 on retry
sleeps exactly `ra + 1` seconds before the retry, and the records the
read ultimately yields equal those of a run where the 200 came first. -/
theorem get_ratelimited_then_ok (cfg : StreamConfig) (r okr : HttpResponse)
    (ra : Nat) (rest : List (List HttpResponse)) (params : Params)
    (h429 : r.status = 429) (hra : r.retryAfter = some ra)
    (hok : okr.status = 200) :
    apiGet [r, okr] = ⟨2, [ra + 1], .ok okr.body⟩ ∧
    apiGet [okr] = ⟨1, [], .ok okr.body⟩ ∧
    (readLoop cfg ([r, okr] :: rest) params).records
      = (readLoop cfg ([okr] :: rest) params).records ∧
    (readLoop cfg ([r, okr] :: rest) params).sleeps
      = (ra + 1) :: (readLoop cfg ([okr] :: rest) params).sleeps := by
  have hg1 : apiGet [r, okr] = ⟨2, [ra + 1], .ok okr.body⟩ := by
    simp [apiGet, backoffRun, parseAndHandleErrors, h429, hra, hok]
  have hg2 : apiGet [okr] = ⟨1, [], .ok okr.body⟩ := by
    simp [apiGet, backoffRun, parseAndHandleErrors, hok]
  have e1 : readLoop cfg ([r, okr] :: rest) params =
      pageStep cfg okr.body [ra + 1] params (fun p => readLoop cfg rest p) := by
    simp only [readLoop, hg1]
  have e2 : readLoop cfg ([okr] :: rest) params =
      pageStep cfg okr.body [] params (fun p => readLoop cfg rest p) := by
    simp only [readLoop, hg2]
  have hs := pageStep_sleeps_shift cfg okr.body [ra + 1] params
    (fun p => readLoop cfg rest p)
  refine ⟨hg1, hg2, ?_, ?_⟩
  · rw [e1, e2]
    exact hs.1
  · rw [e1, e2, hs.2.2.2]
    rfl

/-- Witness for C7: Retry-After 7 sleeps 8 seconds, records unchanged. -/
theorem get_ratelimited_then_ok_witness :
    (tooMany 7).status = 429 ∧ (tooMany 7).retryAfter = some 7 ∧
    (ok200 pageLast).status = 200 ∧
    (readLoop cfgCursor [[tooMany 7, ok200 pageLast]] []).records
      = (readLoop cfgCursor [[ok200 pageLast]] []).records ∧
    (readLoop cfgCursor [[tooMany 7, ok200 pageLast]] []).sleeps
      = 8 :: (readLoop cfgCursor [[ok200 pageLast]] []).sleeps := by
  have h := get_ratelimited_then_ok cfgCursor (tooMany 7) (ok200 pageLast)
    7 [] [] rfl rfl rfl
  exact ⟨rfl, rfl, rfl, h.2.2.1, h.2.2.2⟩

/-- C10: a 429 on a POST propagates to the caller at once — one attempt,
no sleep, no retry — while the same 429 at the head of a GET's script is
retried by the Backoff Controller (which sleeps and then succeeds). -/
theorem post_429_no_retry (r s : HttpResponse)
    (h429 : r.status = 429) (hs : s.status = 200) :
    apiPost r = ⟨1, [], .rateLimited r.retryAfter⟩ ∧
    apiGet [r, s] = ⟨2, [r.retryAfter.getD 0 + 1], .ok s.body⟩ := by
  constructor
  · simp [apiPost, parseAndHandleErrors, h429]
  · simp [apiGet, backoffRun, parseAndHandleErrors, h429, hs]

/-- Witness for C10 at a concrete 429 and a concrete 200. -/
theorem post_429_no_retry_witness :
    (tooMany 7).status = 429 ∧ (ok200 pageLast).status = 200 ∧
    apiPost (tooMany 7) = ⟨1, [], .rateLimited (some 7)⟩ ∧
    apiGet [tooMany 7, ok200 pageLast] = ⟨2, [8], .ok pageLast⟩ := by
  have h := post_429_no_retry (tooMany 7) (ok200 pageLast) rfl rfl
  exact ⟨rfl, rfl, h.1, h.2⟩

/-- C4 counterexample: over `start = 0`, `now = 5 = 2.5 × chunk_size` with
`chunk_size = 2`, `read_chunked` does walk 3 windows, but the final window
is `(4, 6)` — `endTimestamp = ts + chunk_size` is not clamped to `now` —
not `(4, 5)` as the claim states. -/
theorem read_chunked_windows_counterexample :
    chunkWindows 0 5 2 = [(0, 2), (2, 4), (4, 6)] ∧
    chunkWindows 0 5 2 ≠ [(0, 2), (2, 4), (4, 5)] ∧
    (read_chunked cfgChunk2 "" emptyOracle [] 0 5).length = 3 := by
  have h : pyRange 0 5 2 = [0, 2, 4] := by
    rw [pyRange_step 0 5 2 (by norm_num) (by norm_num)]
    have e1 : (0 : Int) + 2 = 2 := by norm_num
    rw [e1, pyRange_step 2 5 2 (by norm_num) (by norm_num)]
    have e2 : (2 : Int) + 2 = 4 := by norm_num
    rw [e2, pyRange_step 4 5 2 (by norm_num) (by norm_num)]
    have e3 : (4 : Int) + 2 = 6 := by norm_num
    rw [e3, pyRange_stop 6 5 2 (by norm_num)]
  have hw : chunkWindows 0 5 2 = [(0, 2), (2, 4), (4, 6)] := by
    norm_num [chunkWindows, h]
  refine ⟨hw, by rw [hw]; decide, ?_⟩
  have hw2 : chunkWindows 0 5 cfgChunk2.chunk_size
      = [(0, 2), (2, 4), (4, 6)] := hw
  simp [read_chunked, hw2]

/-- C4 (amended): for `T0 + 2c < now ≤ T0 + 3c` (in particular
`now = T0 + 2.5c`), `read_chunked` issues exactly 3 windows
`(T0, T0+c)`, `(T0+c, T0+2c)`, `(T0+2c, T0+3c)` — the last window's
`endTimestamp` overshoots `now` by `ts + chunk_size` arithmetic — each
delegated independently to `read` with `startTimestamp`/`endTimestamp`
injected. -/
theorem read_chunked_three_windows (cfg : StreamConfig) (props : String)
    (oracle : Int × Int → List (List HttpResponse)) (params : Params)
    (T0 now c : Int) (hc : cfg.chunk_size = c) (h1 : 0 < c)
    (h2 : T0 + 2 * c < now) (h3 : now ≤ T0 + 3 * c) :
    read_chunked cfg props oracle params T0 now =
      [read cfg props (oracle (T0, T0 + c))
         (insertP (insertP params "startTimestamp" (.num T0))
           "endTimestamp" (.num (T0 + c))),
       read cfg props (oracle (T0 + c, T0 + 2 * c))
         (insertP (insertP params "startTimestamp" (.num (T0 + c)))
           "endTimestamp" (.num (T0 + 2 * c))),
       read cfg props (oracle (T0 + 2 * c, T0 + 3 * c))
         (insertP (insertP params "startTimestamp" (.num (T0 + 2 * c)))
           "endTimestamp" (.num (T0 + 3 * c)))] := by
  have e1 : T0 + c + c = T0 + 2 * c := by ring
  have e2 : T0 + 2 * c + c = T0 + 3 * c := by ring
  have hr : pyRange T0 now c = [T0, T0 + c, T0 + 2 * c] := by
    rw [pyRange_step T0 now c (by omega) h1]
    rw [pyRange_step (T0 + c) now c (by omega) h1]
    rw [e1, pyRange_step (T0 + 2 * c) now c (by omega) h1]
    rw [e2, pyRange_stop (T0 + 3 * c) now c (by omega)]
  have hw : chunkWindows T0 now c =
      [(T0, T0 + c), (T0 + c, T0 + 2 * c), (T0 + 2 * c, T0 + 3 * c)] := by
    simp only [chunkWindows, hr, List.map_cons, List.map_nil]
    rw [e1, e2]
  rw [read_chunked, hc, hw]
  simp only [List.map_cons, List.map_nil]

/-- Witness for the amended C4 at `T0 = 0`, `c = 2`, `now = 5`. -/
theorem read_chunked_three_windows_witness :
    cfgChunk2.chunk_size = 2 ∧ (0 : Int) < 2 ∧
    (0 : Int) + 2 * 2 < 5 ∧ (5 : Int) ≤ 0 + 3 * 2 ∧
    read_chunked cfgChunk2 "" emptyOracle [] 0 5 =
      [read cfgChunk2 "" (emptyOracle (0, 0 + 2))
         (insertP (insertP [] "startTimestamp" (.num 0))
           "endTimestamp" (.num (0 + 2))),
       read cfgChunk2 "" (emptyOracle (0 + 2, 0 + 2 * 2))
         (insertP (insertP [] "startTimestamp" (.num (0 + 2)))
           "endTimestamp" (.num (0 + 2 * 2))),
       read cfgChunk2 "" (emptyOracle (0 + 2 * 2, 0 + 3 * 2))
         (insertP (insertP [] "startTimestamp" (.num (0 + 2 * 2)))
           "endTimestamp" (.num (0 + 3 * 2)))] := by
  refine ⟨rfl, by norm_num, by norm_num, by norm_num, ?_⟩
  exact read_chunked_three_windows cfgChunk2 "" emptyOracle [] 0 5 2
    rfl (by norm_num) (by norm_num) (by norm_num)

/-- C5 counterexample: with no stored access token (and an expiry in the
past), reading the `access_token` property performs NO refresh and returns
`None` — contradicting "refresh exactly when the token is missing or its
expiry is not in the future" and exposing no valid token. -/
theorem access_token_missing_counterexample :
    accessToken ⟨none, some 0, "r"⟩ 100 ⟨"new", "ref", 1000⟩
      = ⟨none, ⟨none, some 0, "r"⟩, false⟩ ∧
    (accessToken ⟨none, some 0, "r"⟩ 100 ⟨"new", "ref", 1000⟩).refreshed
      ≠ true := by
  decide

/-- C5 (amended): a refresh is triggered exactly when a truthy access
token is stored AND its expiry is `None` or strictly before now; when the
stored token is missing or empty, `None` is returned with no refresh.
When a refresh happens the exposed token is the freshly acquired one with
expiry `now + expires_in - 600`; when none happens the credential state is
unchanged and a truthy stored token is exposed only with expiry `≥ now`. -/
theorem access_token_refresh_policy (c : Creds) (now : Int)
    (auth : AuthResponse) :
    ((accessToken c now auth).refreshed = true ↔
      tokenTruthy c.access_token = true ∧
        (c.token_expires = none ∨
          ∃ e, c.token_expires = some e ∧ e < now)) ∧
    ((accessToken c now auth).refreshed = true →
      (accessToken c now auth).token = some auth.access_token ∧
      (accessToken c now auth).creds.token_expires
        = some (now + (auth.expires_in - 600))) ∧
    ((accessToken c now auth).refreshed = false →
      (accessToken c now auth).creds = c ∧
      (tokenTruthy c.access_token = false →
        (accessToken c now auth).token = none) ∧
      (tokenTruthy c.access_token = true →
        (accessToken c now auth).token = c.access_token ∧
        ∀ e, c.token_expires = some e → now ≤ e)) := by
  by_cases ht : tokenTruthy c.access_token = false
  · have hres : accessToken c now auth = ⟨none, c, false⟩ := by
      unfold accessToken
      simp [ht]
    rw [hres]
    simp [ht]
  · have ht' : tokenTruthy c.access_token = true := by
      simpa using ht
    cases he : c.token_expires with
    | none =>
      have hres : accessToken c now auth =
          ⟨some auth.access_token,
            acquireAccessTokenFromRefreshToken c now auth, true⟩ := by
        unfold accessToken
        simp [ht', he, acquireAccessTokenFromRefreshToken]
      rw [hres]
      simp [ht', he, acquireAccessTokenFromRefreshToken]
    | some e =>
      by_cases hlt : e < now
      · have hres : accessToken c now auth =
            ⟨some auth.access_token,
              acquireAccessTokenFromRefreshToken c now auth, true⟩ := by
          unfold accessToken
          simp [ht', he, hlt, acquireAccessTokenFromRefreshToken]
        rw [hres]
        simp only [acquireAccessTokenFromRefreshToken]
        refine ⟨by simp [ht', he, hlt], by simp, by simp⟩
      · have hres : accessToken c now auth = ⟨c.access_token, c, false⟩ := by
          unfold accessToken
          simp [ht', he, hlt]
        rw [hres]
        refine ⟨by simp [ht', he, hlt], by simp, ?_⟩
        intro _
        refine ⟨rfl, by simp [ht'], fun _ => ⟨rfl, ?_⟩⟩
        intro e' he'
        have hee : e = e' := by
          injection he'
        omega

/-- Witness for the amended C5: a stored token with expiry 50 read at time
100 is refreshed, and the fresh token is exposed. -/
theorem access_token_refresh_policy_witness :
    (accessToken ⟨some "tok", some 50, "r"⟩ 100
      ⟨"new", "ref", 1000⟩).refreshed = true ∧
    (accessToken ⟨some "tok", some 50, "r"⟩ 100
      ⟨"new", "ref", 1000⟩).token = some "new" := by
  have h := access_token_refresh_policy ⟨some "tok", some 50, "r"⟩ 100
    ⟨"new", "ref", 1000⟩
  have hr : (accessToken ⟨some "tok", some 50, "r"⟩ 100
      ⟨"new", "ref", 1000⟩).refreshed = true :=
    h.1.mpr ⟨by decide, Or.inr ⟨50, rfl, by decide⟩⟩
  exact ⟨hr, (h.2.1 hr).1⟩

end Hubspot
